import Mathlib

/-!
Shallow embedding of the third-person character controller of this
repository: the `Player` class (src/unnamed/part_000, the player
controller) and the `CameraController` class (src/src/Camera.js).

JavaScript floating-point numbers are modelled by exact reals.  The
THREE.js vector primitives the code calls (length, normalize, cross,
addScaledVector, multiplyScalar, lerp) are external library operations
and are embedded by their componentwise formulas.  The skinned mesh is
modelled by the two pieces of its transform the code reads or writes:
its world position (`meshPosition`) and its rotation.  The mesh rotation
is only ever written through
`quaternion.slerp(setFromAxisAngle((0,1,0), targetRotation), 10*dt)`, a
spherical interpolation between two rotations about the world Y axis, so
it is modelled by a single yaw angle moved a fraction `t` along the
shorter arc toward the target yaw (`slerpYaw`).  Animation mixer state is
external and not modelled; the per-frame inputs (key flags, camera world
direction, elapsed time) are passed as arguments.
-/

open Real

noncomputable section

/-- Componentwise model of a THREE.Vector3. -/
structure Vec3 where
  x : ℝ
  y : ℝ
  z : ℝ

/-- THREE.Vector3.add. -/
def Vec3.add (a b : Vec3) : Vec3 :=
  ⟨a.x + b.x, a.y + b.y, a.z + b.z⟩

/-- THREE.Vector3.multiplyScalar. -/
def Vec3.multiplyScalar (v : Vec3) (s : ℝ) : Vec3 :=
  ⟨v.x * s, v.y * s, v.z * s⟩

/-- THREE.Vector3.addScaledVector. -/
def Vec3.addScaledVector (a b : Vec3) (s : ℝ) : Vec3 :=
  ⟨a.x + b.x * s, a.y + b.y * s, a.z + b.z * s⟩

/-- THREE.Vector3.length. -/
def Vec3.length (v : Vec3) : ℝ :=
  Real.sqrt (v.x ^ 2 + v.y ^ 2 + v.z ^ 2)

/-- THREE.Vector3.normalize: `divideScalar(this.length() || 1)` — the
zero vector is left unchanged (division by 1). -/
def Vec3.normalize (v : Vec3) : Vec3 :=
  v.multiplyScalar (1 / (if v.length = 0 then 1 else v.length))

/-- THREE.Vector3.crossVectors. -/
def Vec3.cross (a b : Vec3) : Vec3 :=
  ⟨a.y * b.z - a.z * b.y, a.z * b.x - a.x * b.z, a.x * b.y - a.y * b.x⟩

/-- THREE.Vector3.lerp: `this += (v - this) * alpha` componentwise. -/
def Vec3.lerp (a b : Vec3) (t : ℝ) : Vec3 :=
  ⟨a.x + (b.x - a.x) * t, a.y + (b.y - a.y) * t, a.z + (b.z - a.z) * t⟩

/-- Euclidean distance between two modelled vectors. -/
def dist3 (a b : Vec3) : ℝ :=
  Real.sqrt ((a.x - b.x) ^ 2 + (a.y - b.y) ^ 2 + (a.z - b.z) ^ 2)

/-- Model of JavaScript Math.atan2 (signed zeros are not modelled;
Math.atan2(0, 0) = 0). -/
def atan2 (y x : ℝ) : ℝ :=
  if 0 < x then Real.arctan (y / x)
  else if x < 0 then
    (if 0 ≤ y then Real.arctan (y / x) + π else Real.arctan (y / x) - π)
  else
    (if 0 < y then π / 2 else if y < 0 then -(π / 2) else 0)

/-- Angle wrapped into the interval (-π, π]. -/
def wrapPi (θ : ℝ) : ℝ :=
  θ - 2 * π * ((⌈(θ - π) / (2 * π)⌉ : ℤ) : ℝ)

/-- Model of `mesh.quaternion.slerp(q, t)` for the player mesh, where the
mesh quaternion and `q` are both rotations about the world Y axis:
spherical interpolation between coaxial rotations moves the yaw angle a
fraction `t` along the shorter arc (THREE's slerp negates the target
representative when the quaternion dot product is negative, which for Y
rotations is exactly wrapping the yaw difference into (-π, π]). -/
def slerpYaw (a b t : ℝ) : ℝ :=
  a + t * wrapPi (b - a)

/-- The key flags kept in `this.keys` of the Player (part_000 lines
19-25), mutated by keydown/keyup handlers. -/
structure Keys where
  forward : Bool
  backward : Bool
  left : Bool
  right : Bool
  space : Bool

/-- Player controller state: logical position, vertical velocity, jump
flag, loading flag, and the modelled mesh transform. -/
structure PlayerState where
  isLoaded : Bool
  position : Vec3
  velocityY : ℝ
  isJumping : Bool
  meshPosition : Vec3
  meshYaw : ℝ

/-- part_000 line 10: `this.speed = 5`. -/
def Player.speed : ℝ := 5

/-- part_000 line 14: `this.gravity = -20`. -/
def Player.gravity : ℝ := -20

/-- part_000 line 15: `this.jumpForce = 8`. -/
def Player.jumpForce : ℝ := 8

/-- part_000 lines 158-162: the 2D input vector built from the four
directional flags (z: forward -1 / backward +1; x: left -1 / right +1). -/
def Player.inputVector (keys : Keys) : Vec3 :=
  ⟨(if keys.left then -1 else 0) + (if keys.right then 1 else 0), 0,
   (if keys.forward then -1 else 0) + (if keys.backward then 1 else 0)⟩

/-- part_000 lines 137-151: jump impulse, semi-implicit Euler gravity
integration, and ground clamp.  Returns the new
(position.y, velocityY, isJumping). -/
def Player.verticalStep (s : PlayerState) (keys : Keys) (dt : ℝ) : ℝ × ℝ × Bool :=
  let v0 := if keys.space && !s.isJumping then Player.jumpForce else s.velocityY
  let j0 := if keys.space && !s.isJumping then true else s.isJumping
  let v1 := v0 + Player.gravity * dt
  let y1 := s.position.y + v1 * dt
  if y1 ≤ 0 then (0, 0, false) else (y1, v1, j0)

/-- part_000 lines 164-191: normalized input vector re-expressed in
camera-relative world space.  `camDir` is what
`camera.getWorldDirection` returns; it is projected onto the XZ plane
and normalized, the right vector is its cross product with world up, and
the combination is normalized. -/
def Player.moveDirection (keys : Keys) (camDir : Vec3) : Vec3 :=
  let inputVector := (Player.inputVector keys).normalize
  let cameraDirection := (Vec3.mk camDir.x 0 camDir.z).normalize
  let cameraRight := cameraDirection.cross ⟨0, 1, 0⟩
  (((Vec3.mk 0 0 0).addScaledVector cameraDirection (-inputVector.z)).addScaledVector
      cameraRight inputVector.x).normalize

/-- part_000 lines 130-217, `Player.update(deltaTime)`.  Early-returns
while not loaded.  Otherwise: vertical physics (jump, gravity, ground
clamp), write of `mesh.position.y` (line 154), then — only when the
input vector has positive length — horizontal translation of position
and mesh by `moveDirection * speed * dt` and slerp of the mesh rotation
toward `atan2(moveDirection.x, moveDirection.z)`.  Note that line 194's
`multiplyScalar` mutates `moveDirection` in place, so line 201's `atan2`
reads the already-scaled vector (`moveStep`); this is reflected here.
The call to `mixer.update` is external animation bookkeeping and the
animation selection (lines 209-216) touches no modelled state. -/
def Player.update (s : PlayerState) (keys : Keys) (camDir : Vec3) (dt : ℝ) : PlayerState :=
  if s.isLoaded then
    let yvj := Player.verticalStep s keys dt
    if 0 < (Player.inputVector keys).length then
      let moveStep := (Player.moveDirection keys camDir).multiplyScalar (Player.speed * dt)
      let targetRotation := atan2 moveStep.x moveStep.z
      { isLoaded := s.isLoaded,
        position := ⟨s.position.x + moveStep.x, yvj.1, s.position.z + moveStep.z⟩,
        velocityY := yvj.2.1,
        isJumping := yvj.2.2,
        meshPosition := ⟨s.position.x + moveStep.x, yvj.1, s.position.z + moveStep.z⟩,
        meshYaw := slerpYaw s.meshYaw targetRotation (10 * dt) }
    else
      { isLoaded := s.isLoaded,
        position := ⟨s.position.x, yvj.1, s.position.z⟩,
        velocityY := yvj.2.1,
        isJumping := yvj.2.2,
        meshPosition := ⟨s.meshPosition.x, yvj.1, s.meshPosition.z⟩,
        meshYaw := s.meshYaw }
  else s

/-- Camera controller state (Camera.js constructor): damped pose, orbit
angles and the shoulder-mode flag. -/
structure CameraState where
  currentPosition : Vec3
  currentLookat : Vec3
  theta : ℝ
  phi : ℝ
  isShoulderMode : Bool

/-- Camera.js line 20: look-down limit `-π/4`. -/
def CameraController.minPhi : ℝ := -(π / 4)

/-- Camera.js line 21: look-up limit `π/3`. -/
def CameraController.maxPhi : ℝ := π / 3

/-- Camera.js line 23: mouse sensitivity. -/
def CameraController.sensitivity : ℝ := 0.002

/-- Camera.js lines 33-41: the mousemove handler in the pointer-locked
state.  Yaw (theta) decreases by `movementX * sensitivity` with no
clamp; pitch (phi) decreases by `movementY * sensitivity` and is then
clamped into [minPhi, maxPhi]. -/
def CameraController.onMouseMove (s : CameraState) (movementX movementY : ℝ) : CameraState :=
  { s with
    theta := s.theta - movementX * CameraController.sensitivity,
    phi := max CameraController.minPhi
        (min CameraController.maxPhi (s.phi - movementY * CameraController.sensitivity)) }

/-- Camera.js lines 50-85, `calculateIdealOffset`: spherical-to-Cartesian
position from (radius, theta, phi) plus a fixed height offset, an
optional lateral shoulder offset along the yaw-right vector, added to
the target mesh position, with the resulting height clamped to at
least 0.2. -/
def CameraController.calculateIdealOffset (s : CameraState) (targetMeshPos : Vec3) : Vec3 :=
  let currentRadius : ℝ := if s.isShoulderMode then 1.5 else 3.0
  let sideOffset : ℝ := if s.isShoulderMode then 0.8 else 0.0
  let heightOffset : ℝ := if s.isShoulderMode then 1.5 else 1.5
  let offset : Vec3 :=
    ⟨currentRadius * Real.sin s.theta * Real.cos s.phi,
     currentRadius * Real.sin s.phi + heightOffset,
     currentRadius * Real.cos s.theta * Real.cos s.phi⟩
  let offset2 : Vec3 :=
    if sideOffset ≠ 0 then
      ⟨offset.x + Real.cos s.theta * sideOffset, offset.y,
       offset.z + -Real.sin s.theta * sideOffset⟩
    else offset
  let offset3 := offset2.add targetMeshPos
  if offset3.y < 0.2 then ⟨offset3.x, 0.2, offset3.z⟩ else offset3

/-- Camera.js lines 87-108, `calculateIdealLookat`: a point 1.5 above the
target mesh position, shifted laterally in shoulder mode. -/
def CameraController.calculateIdealLookat (s : CameraState) (targetMeshPos : Vec3) : Vec3 :=
  let lookAtPos : Vec3 := ⟨0, 1.5, 0⟩
  let lookAtPos2 : Vec3 :=
    if s.isShoulderMode then
      ⟨lookAtPos.x + Real.cos s.theta * 0.8, lookAtPos.y,
       lookAtPos.z + -Real.sin s.theta * 0.8⟩
    else lookAtPos
  lookAtPos2.add targetMeshPos

/-- Camera.js lines 110-137, `CameraController.update(timeElapsed)`.
`targetMesh` is `some` of the player mesh's world position once the
asset has loaded, `none` before (`this.target.mesh` undefined), in which
case the method early-returns.  Both damped vectors are lerped toward
the ideal pose by `t = 1 - exp(-decay * timeElapsed)` with decay 10; the
render camera's world position is then set to `currentPosition` (and its
orientation looks at `currentLookat`). -/
def CameraController.update (s : CameraState) (targetMesh : Option Vec3) (timeElapsed : ℝ) :
    CameraState :=
  match targetMesh with
  | none => s
  | some meshPos =>
    let idealOffset := CameraController.calculateIdealOffset s meshPos
    let idealLookat := CameraController.calculateIdealLookat s meshPos
    let decay : ℝ := 10
    let t : ℝ := 1 - Real.exp (-decay * timeElapsed)
    { s with
      currentPosition := s.currentPosition.lerp idealOffset t,
      currentLookat := s.currentLookat.lerp idealLookat t }

/-- No key held. -/
def keysNone : Keys := ⟨false, false, false, false, false⟩

/-- Only the jump key held. -/
def keysSpaceOnly : Keys := ⟨false, false, false, false, true⟩

/-- Only the forward key held. -/
def keysForwardOnly : Keys := ⟨true, false, false, false, false⟩

/-- Forward and backward both held (an opposing pair), plus left. -/
def keysOpposingPlusLeft : Keys := ⟨true, true, true, false, false⟩

/-- Both opposing pairs fully held. -/
def keysAllOpposing : Keys := ⟨true, true, true, true, false⟩

/-- Player state right after assets finish loading: position and mesh at
the origin (part_000 lines 8, 45), at rest, identity mesh rotation. -/
def player0 : PlayerState :=
  { isLoaded := true, position := ⟨0, 0, 0⟩, velocityY := 0, isJumping := false,
    meshPosition := ⟨0, 0, 0⟩, meshYaw := 0 }

/-- A player state before loading completes. -/
def playerUnloaded : PlayerState :=
  { isLoaded := false, position := ⟨0, 0, 0⟩, velocityY := 0, isJumping := false,
    meshPosition := ⟨0, 0, 0⟩, meshYaw := 0 }

/-- A mid-air player state (isJumping set). -/
def playerAirborne : PlayerState :=
  { isLoaded := true, position := ⟨0, 1, 0⟩, velocityY := 2, isJumping := true,
    meshPosition := ⟨0, 1, 0⟩, meshYaw := 0 }

/-- Camera world direction for yaw 0: the default camera faces -Z. -/
def camDefaultDir : Vec3 := ⟨0, 0, -1⟩

/-- Camera controller state at construction: damped pose at the zero
vector, angles 0, orbit mode. -/
def cam0 : CameraState :=
  { currentPosition := ⟨0, 0, 0⟩, currentLookat := ⟨0, 0, 0⟩, theta := 0, phi := 0,
    isShoulderMode := false }

/-- The jump scenario of the spec, at 60 fps: starting from `player0`,
the jump key is held during the first frame only, no directional input,
camera facing -Z. -/
def jumpScenario : ℕ → PlayerState
  | 0 => player0
  | n + 1 =>
    Player.update (jumpScenario n) (if n == 0 then keysSpaceOnly else keysNone)
      camDefaultDir (1 / 60)

/-- Repeated camera updates with a constant target mesh position and a
constant per-frame elapsed time. -/
def camIter (s : CameraState) (meshPos : Vec3) (dt : ℝ) : ℕ → CameraState
  | 0 => s
  | n + 1 => CameraController.update (camIter s meshPos dt n) (some meshPos) dt

/-- Vertical physics state in exact scaled integers, used to evaluate
the jump scenario: `y` is `position.y` in units of 1/360, `v` is
`velocityY` in units of 1/3 (at 60 fps with gravity -20 and jump
impulse 8 every reachable value is such a multiple). -/
structure PhysZ where
  y : ℤ
  v : ℤ
  j : Bool
deriving DecidableEq

/-- Scaled-integer mirror of `Player.verticalStep` at a fixed frame time
of 1/60 s with the source constants gravity = -20 and jumpForce = 8:
the impulse 8 is 24 thirds, one frame of gravity subtracts
`20/60 = 1/3` (one unit of `v`), and one frame of position integration
adds `v/60`, i.e. `2*v` units of 1/360.  The correspondence with
`Player.verticalStep` is proved in `verticalStep_cast`. -/
def physFrameZ (space : Bool) (p : PhysZ) : PhysZ :=
  let v0 : ℤ := if space && !p.j then 24 else p.v
  let j0 : Bool := if space && !p.j then true else p.j
  let v1 : ℤ := v0 - 1
  let y1 : ℤ := p.y + 2 * v1
  if y1 ≤ 0 then ⟨0, 0, false⟩ else ⟨y1, v1, j0⟩

/-- Scaled-integer mirror of `jumpScenario`. -/
def scenarioZ : ℕ → PhysZ
  | 0 => ⟨0, 0, false⟩
  | n + 1 => physFrameZ (n == 0) (scenarioZ n)

end

/-! ## Helper lemmas -/

theorem verticalStep_y_nonneg (s : PlayerState) (keys : Keys) (dt : ℝ) :
    0 ≤ (Player.verticalStep s keys dt).1 := by
  simp only [Player.verticalStep]
  split <;> split <;>
    first
      | exact le_refl (0 : ℝ)
      | (next h => exact le_of_lt (not_le.mp h))

theorem inputVector_cancel (k : Keys) (hfb : k.backward = k.forward) (hlr : k.right = k.left) :
    Player.inputVector k = ⟨0, 0, 0⟩ := by
  simp only [Player.inputVector, hfb, hlr]
  cases k.forward <;> cases k.left <;> norm_num

theorem length_zero_vec : Vec3.length ⟨0, 0, 0⟩ = 0 := by
  show Real.sqrt ((0 : ℝ) ^ 2 + 0 ^ 2 + 0 ^ 2) = 0
  norm_num

theorem update_noMove (s : PlayerState) (k : Keys) (camDir : Vec3) (dt : ℝ)
    (hl : s.isLoaded = true) (hiv : Player.inputVector k = ⟨0, 0, 0⟩) :
    Player.update s k camDir dt =
      { isLoaded := s.isLoaded,
        position := ⟨s.position.x, (Player.verticalStep s k dt).1, s.position.z⟩,
        velocityY := (Player.verticalStep s k dt).2.1,
        isJumping := (Player.verticalStep s k dt).2.2,
        meshPosition := ⟨s.meshPosition.x, (Player.verticalStep s k dt).1, s.meshPosition.z⟩,
        meshYaw := s.meshYaw } := by
  have hlen : ¬ 0 < (Player.inputVector k).length := by
    rw [hiv, length_zero_vec]
    exact lt_irrefl 0
  simp [Player.update, hl, hlen]

/-! ## Claim C1 -/

/-- Claim C1: for every `Player.update` call after loading completes,
with any nonnegative deltaTime, any key state, any camera direction and
any starting state, the resulting `position.y` is nonnegative (ground
clamp).  Since the starting state is arbitrary this covers every update
of any sequence of frames. -/
theorem ground_clamp_y_nonneg (s : PlayerState) (keys : Keys) (camDir : Vec3) (dt : ℝ)
    (hl : s.isLoaded = true) (hdt : 0 ≤ dt) :
    0 ≤ (Player.update s keys camDir dt).position.y := by
  have hv := verticalStep_y_nonneg s keys dt
  simp only [Player.update, hl, if_true]
  split <;> exact hv

/-- Witness for `ground_clamp_y_nonneg` at a concrete input. -/
theorem ground_clamp_y_nonneg_witness :
    player0.isLoaded = true ∧ (0 : ℝ) ≤ 1 ∧
    0 ≤ (Player.update player0 keysNone camDefaultDir 1).position.y :=
  ⟨rfl, by norm_num, ground_clamp_y_nonneg player0 keysNone camDefaultDir 1 rfl (by norm_num)⟩

/-! ## Claim C8 -/

/-- Claim C8: while loading is incomplete, per-frame updates are no-ops:
`Player.update` returns the state unchanged while `isLoaded` is false,
and `CameraController.update` returns the state unchanged while the
tracked player's mesh is not yet available. -/
theorem loading_guard_noop :
    (∀ (s : PlayerState) (keys : Keys) (camDir : Vec3) (dt : ℝ),
        s.isLoaded = false → Player.update s keys camDir dt = s) ∧
    (∀ (c : CameraState) (dt : ℝ), CameraController.update c none dt = c) := by
  constructor
  · intro s keys camDir dt h
    simp [Player.update, h]
  · intro c dt
    rfl

/-- Witness for `loading_guard_noop` at concrete inputs. -/
theorem loading_guard_noop_witness :
    playerUnloaded.isLoaded = false ∧
    Player.update playerUnloaded keysNone camDefaultDir 1 = playerUnloaded ∧
    CameraController.update cam0 none 1 = cam0 :=
  ⟨rfl, loading_guard_noop.1 playerUnloaded keysNone camDefaultDir 1 rfl,
   loading_guard_noop.2 cam0 1⟩

/-! ## Claim C9 -/

/-- Claim C9: if the jump key is set while `isJumping` is already true,
`Player.update` does not re-apply the jump impulse: the update with the
space flag set is identical to the update with it clear, so
`velocityY` is in particular not reset to the impulse a second time. -/
theorem jump_not_reapplied (s : PlayerState) (keys : Keys) (camDir : Vec3) (dt : ℝ)
    (hl : s.isLoaded = true) (hj : s.isJumping = true) :
    Player.update s { keys with space := true } camDir dt
      = Player.update s { keys with space := false } camDir dt := by
  simp [Player.update, Player.verticalStep, Player.inputVector, Player.moveDirection, hl, hj]

/-- Witness for `jump_not_reapplied` at a concrete input. -/
theorem jump_not_reapplied_witness :
    playerAirborne.isLoaded = true ∧ playerAirborne.isJumping = true ∧
    Player.update playerAirborne { keysNone with space := true } camDefaultDir (1 / 60)
      = Player.update playerAirborne { keysNone with space := false } camDefaultDir (1 / 60) :=
  ⟨rfl, rfl, jump_not_reapplied playerAirborne keysNone camDefaultDir (1 / 60) rfl rfl⟩

/-! ## Claim C10 -/

/-- Claim C10: every `Player.update` call after load preserves the
invariant that the mesh world position equals the logical position:
update writes the mesh y every frame and the mesh x/z whenever the
position x/z change. -/
theorem mesh_follows_position (s : PlayerState) (keys : Keys) (camDir : Vec3) (dt : ℝ)
    (hl : s.isLoaded = true) (hm : s.meshPosition = s.position) :
    (Player.update s keys camDir dt).meshPosition = (Player.update s keys camDir dt).position := by
  simp only [Player.update, hl, if_true]
  split
  · rfl
  · rw [hm]

/-- Witness for `mesh_follows_position` at a concrete input. -/
theorem mesh_follows_position_witness :
    player0.meshPosition = player0.position ∧
    (Player.update player0 keysNone camDefaultDir 1).meshPosition
      = (Player.update player0 keysNone camDefaultDir 1).position :=
  ⟨rfl, mesh_follows_position player0 keysNone camDefaultDir 1 rfl rfl⟩

/-! ## Evaluation helpers for the movement branch -/

theorem normalize_of_length_one (v : Vec3) (h : v.length = 1) : v.normalize = v := by
  simp [Vec3.normalize, h, Vec3.multiplyScalar]

theorem length_negX : Vec3.length ⟨-1, 0, 0⟩ = 1 := by
  show Real.sqrt ((-1 : ℝ) ^ 2 + 0 ^ 2 + 0 ^ 2) = 1
  norm_num

theorem length_negZ : Vec3.length ⟨0, 0, -1⟩ = 1 := by
  show Real.sqrt ((0 : ℝ) ^ 2 + 0 ^ 2 + (-1) ^ 2) = 1
  norm_num

theorem moveDirection_forwardOnly :
    Player.moveDirection keysForwardOnly camDefaultDir = ⟨0, 0, -1⟩ := by
  have h1 : Player.inputVector keysForwardOnly = ⟨0, 0, -1⟩ := by
    norm_num [Player.inputVector, keysForwardOnly]
  simp only [Player.moveDirection, h1, camDefaultDir,
    normalize_of_length_one _ length_negZ]
  norm_num [Vec3.normalize, Vec3.length, Vec3.cross, Vec3.addScaledVector,
    Vec3.multiplyScalar, Real.sqrt_one]

theorem moveDirection_opposingPlusLeft :
    Player.moveDirection keysOpposingPlusLeft camDefaultDir = ⟨-1, 0, 0⟩ := by
  have h1 : Player.inputVector keysOpposingPlusLeft = ⟨-1, 0, 0⟩ := by
    norm_num [Player.inputVector, keysOpposingPlusLeft]
  simp only [Player.moveDirection, h1, camDefaultDir,
    normalize_of_length_one _ length_negZ, normalize_of_length_one _ length_negX]
  norm_num [Vec3.normalize, Vec3.length, Vec3.cross, Vec3.addScaledVector,
    Vec3.multiplyScalar, Real.sqrt_one]

/-! ## Claim C2 (corrected) -/

/-- Counterexample to claim C2 as stated: with forward and backward both
set (an opposing pair) but also left set, the horizontal input vector is
not the zero vector and `update` changes `position.x` (from 0 to -1 in a
0.2 s frame with the camera facing -Z). -/
theorem opposing_pair_counterexample :
    Player.inputVector keysOpposingPlusLeft ≠ ⟨0, 0, 0⟩ ∧
    player0.position.x = 0 ∧
    (Player.update player0 keysOpposingPlusLeft camDefaultDir (1 / 5)).position.x = -1 := by
  have h1 : Player.inputVector keysOpposingPlusLeft = ⟨-1, 0, 0⟩ := by
    norm_num [Player.inputVector, keysOpposingPlusLeft]
  refine ⟨by rw [h1]; intro h; injection h with hx; norm_num at hx, rfl, ?_⟩
  have hlen : 0 < (Player.inputVector keysOpposingPlusLeft).length := by
    rw [h1, length_negX]
    norm_num
  simp only [Player.update, player0, hlen, if_true, moveDirection_opposingPlusLeft]
  norm_num [Vec3.multiplyScalar, Player.speed]

/-- Claim C2 amended: whenever each opposing pair of directional flags
cancels (backward equals forward and right equals left — in particular
when both flags of each pair are set), the horizontal input vector is
the zero vector and `update` leaves `position.x` and `position.z`
unchanged (gravity may still change `position.y`). -/
theorem cancelling_input_no_motion (s : PlayerState) (k : Keys) (camDir : Vec3) (dt : ℝ)
    (hl : s.isLoaded = true) (hfb : k.backward = k.forward) (hlr : k.right = k.left) :
    Player.inputVector k = ⟨0, 0, 0⟩ ∧
    (Player.update s k camDir dt).position.x = s.position.x ∧
    (Player.update s k camDir dt).position.z = s.position.z := by
  have hiv := inputVector_cancel k hfb hlr
  refine ⟨hiv, ?_, ?_⟩ <;> rw [update_noMove s k camDir dt hl hiv]

/-- Witness for `cancelling_input_no_motion` with both opposing pairs
fully held. -/
theorem cancelling_input_no_motion_witness :
    player0.isLoaded = true ∧
    keysAllOpposing.backward = keysAllOpposing.forward ∧
    keysAllOpposing.right = keysAllOpposing.left ∧
    (Player.inputVector keysAllOpposing = ⟨0, 0, 0⟩ ∧
      (Player.update player0 keysAllOpposing camDefaultDir 1).position.x = player0.position.x ∧
      (Player.update player0 keysAllOpposing camDefaultDir 1).position.z = player0.position.z) :=
  ⟨rfl, rfl, rfl, cancelling_input_no_motion player0 keysAllOpposing camDefaultDir 1 rfl rfl rfl⟩

/-! ## Claim C3 (corrected) -/

theorem atan2_zero_neg (x : ℝ) (hx : x < 0) : atan2 0 x = π := by
  simp only [atan2]
  rw [if_neg (not_lt.mpr hx.le), if_pos hx, if_pos (le_refl (0 : ℝ)), zero_div,
    Real.arctan_zero, zero_add]

theorem wrapPi_eq_self (θ : ℝ) (h1 : -π < θ) (h2 : θ ≤ π) : wrapPi θ = θ := by
  have hpi : (0 : ℝ) < 2 * π := by
    have := Real.pi_pos
    linarith
  have hc : ⌈(θ - π) / (2 * π)⌉ = 0 := by
    rw [Int.ceil_eq_zero_iff, Set.mem_Ioc]
    constructor
    · rw [lt_div_iff hpi]
      nlinarith
    · rw [div_le_iff hpi]
      nlinarith
  simp [wrapPi, hc]

/-- Claim C3 amended: with only the forward key held and the camera
facing -Z (yaw 0), each update moves the position by `speed * dt` in the
-Z direction and leaves x unchanged, and the mesh facing converges
toward yaw = π — the mesh faces -Z, the movement direction, since the
code's target is `atan2(moveDirection.x, moveDirection.z) = atan2(0, -1)
= π`, not yaw = 0 (+Z) as the claim stated.  Each update contracts the
yaw's distance to π by the slerp factor `10 * dt`. -/
theorem forward_motion_and_facing (s : PlayerState) (dt : ℝ)
    (hl : s.isLoaded = true) (hdt : 0 < dt) (hdt1 : 10 * dt ≤ 1)
    (hy0 : 0 ≤ s.meshYaw) (hy1 : s.meshYaw ≤ π) :
    (Player.update s keysForwardOnly camDefaultDir dt).position.z
        = s.position.z - Player.speed * dt ∧
    (Player.update s keysForwardOnly camDefaultDir dt).position.x = s.position.x ∧
    (Player.update s keysForwardOnly camDefaultDir dt).meshYaw - π
        = (1 - 10 * dt) * (s.meshYaw - π) := by
  have h1 : Player.inputVector keysForwardOnly = ⟨0, 0, -1⟩ := by
    norm_num [Player.inputVector, keysForwardOnly]
  have hlen : 0 < (Player.inputVector keysForwardOnly).length := by
    rw [h1, length_negZ]
    norm_num
  have hspd : 0 < Player.speed * dt := by
    rw [Player.speed]
    linarith
  have hrot : atan2 ((Vec3.mk 0 0 (-1)).multiplyScalar (Player.speed * dt)).x
      ((Vec3.mk 0 0 (-1)).multiplyScalar (Player.speed * dt)).z = π := by
    simp only [Vec3.multiplyScalar, zero_mul, neg_one_mul]
    exact atan2_zero_neg _ (neg_lt_zero.mpr hspd)
  simp only [Player.update, hl, if_true, hlen, moveDirection_forwardOnly]
  refine ⟨?_, ?_, ?_⟩
  · simp only [Vec3.multiplyScalar]
    ring
  · simp only [Vec3.multiplyScalar]
    ring
  · rw [hrot]
    simp only [slerpYaw]
    rw [wrapPi_eq_self (π - s.meshYaw) (by linarith [Real.pi_pos]) (by linarith)]
    ring

/-- Witness for `forward_motion_and_facing` at a concrete input. -/
theorem forward_motion_and_facing_witness :
    player0.isLoaded = true ∧ (0 : ℝ) < 1 / 20 ∧ 10 * (1 / 20 : ℝ) ≤ 1 ∧
    (0 : ℝ) ≤ player0.meshYaw ∧ player0.meshYaw ≤ π ∧
    ((Player.update player0 keysForwardOnly camDefaultDir (1 / 20)).position.z
        = player0.position.z - Player.speed * (1 / 20) ∧
     (Player.update player0 keysForwardOnly camDefaultDir (1 / 20)).position.x
        = player0.position.x ∧
     (Player.update player0 keysForwardOnly camDefaultDir (1 / 20)).meshYaw - π
        = (1 - 10 * (1 / 20)) * (player0.meshYaw - π)) :=
  ⟨rfl, by norm_num, by norm_num, le_refl 0, Real.pi_nonneg,
   forward_motion_and_facing player0 (1 / 20) rfl (by norm_num) (by norm_num)
     (le_refl 0) Real.pi_nonneg⟩

theorem update_fwd_step1 :
    Player.update player0 keysForwardOnly camDefaultDir (1 / 10)
      = { isLoaded := true, position := ⟨0, 0, -(1 / 2)⟩, velocityY := 0, isJumping := false,
          meshPosition := ⟨0, 0, -(1 / 2)⟩, meshYaw := π } := by
  have h1 : Player.inputVector keysForwardOnly = ⟨0, 0, -1⟩ := by
    norm_num [Player.inputVector, keysForwardOnly]
  have hlen : 0 < (Player.inputVector keysForwardOnly).length := by
    rw [h1, length_negZ]
    norm_num
  have hrot : atan2 (0 : ℝ) (-(1 / 2)) = π := atan2_zero_neg _ (by norm_num)
  have hw : wrapPi π = π :=
    wrapPi_eq_self π (by linarith [Real.pi_pos]) (le_refl π)
  have hsp : keysForwardOnly.space = false := rfl
  norm_num [Player.update, Player.verticalStep, player0, h1, hsp, length_negZ,
    moveDirection_forwardOnly, Vec3.multiplyScalar, Player.speed, Player.gravity,
    Player.jumpForce, slerpYaw, hrot, hw]

theorem update_fwd_step2 :
    Player.update
        { isLoaded := true, position := ⟨0, 0, -(1 / 2)⟩, velocityY := 0, isJumping := false,
          meshPosition := ⟨0, 0, -(1 / 2)⟩, meshYaw := π }
        keysForwardOnly camDefaultDir (1 / 10)
      = { isLoaded := true, position := ⟨0, 0, -1⟩, velocityY := 0, isJumping := false,
          meshPosition := ⟨0, 0, -1⟩, meshYaw := π } := by
  have h1 : Player.inputVector keysForwardOnly = ⟨0, 0, -1⟩ := by
    norm_num [Player.inputVector, keysForwardOnly]
  have hlen : 0 < (Player.inputVector keysForwardOnly).length := by
    rw [h1, length_negZ]
    norm_num
  have hrot : atan2 (0 : ℝ) (-(1 / 2)) = π := atan2_zero_neg _ (by norm_num)
  have hw : wrapPi 0 = 0 :=
    wrapPi_eq_self 0 (by linarith [Real.pi_pos]) Real.pi_nonneg
  have hsp : keysForwardOnly.space = false := rfl
  norm_num [Player.update, Player.verticalStep, h1, hsp, length_negZ,
    moveDirection_forwardOnly, Vec3.multiplyScalar, Player.speed, Player.gravity,
    Player.jumpForce, slerpYaw, hrot, hw]

/-- Counterexample to claim C3 as stated: with only the forward key held
and the camera facing -Z, the mesh facing does not converge toward
yaw = 0; the code's slerp target is `atan2(0, -1) = π`, and starting from
`player0` (mesh yaw 0) the yaw reaches π after one 0.1 s update and
stays there, while the position does move in -Z at rate `speed`. -/
theorem forward_facing_counterexample :
    (Player.update player0 keysForwardOnly camDefaultDir (1 / 10)).meshYaw = π ∧
    (Player.update (Player.update player0 keysForwardOnly camDefaultDir (1 / 10))
        keysForwardOnly camDefaultDir (1 / 10)).meshYaw = π ∧
    (Player.update (Player.update player0 keysForwardOnly camDefaultDir (1 / 10))
        keysForwardOnly camDefaultDir (1 / 10)).position.z = -1 ∧
    π ≠ 0 :=
  ⟨by rw [update_fwd_step1], by rw [update_fwd_step1, update_fwd_step2],
   by rw [update_fwd_step1, update_fwd_step2], Real.pi_ne_zero⟩

/-! ## Claim C4 -/

theorem clamp_cast (yz vz : ℤ) (j : Bool) :
    (if ((yz : ℝ) / 360 ≤ 0) then ((0 : ℝ), (0 : ℝ), false)
     else ((yz : ℝ) / 360, (vz : ℝ) / 3, j))
      = (((if yz ≤ 0 then (⟨0, 0, false⟩ : PhysZ) else ⟨yz, vz, j⟩).y : ℝ) / 360,
         ((if yz ≤ 0 then (⟨0, 0, false⟩ : PhysZ) else ⟨yz, vz, j⟩).v : ℝ) / 3,
         (if yz ≤ 0 then (⟨0, 0, false⟩ : PhysZ) else ⟨yz, vz, j⟩).j) := by
  by_cases h : yz ≤ 0
  · have h' : (yz : ℝ) ≤ 0 := by exact_mod_cast h
    rw [if_pos h, if_pos (by linarith : (yz : ℝ) / 360 ≤ 0)]
    norm_num
  · have h' : (0 : ℝ) < (yz : ℝ) := by exact_mod_cast not_le.mp h
    rw [if_neg h, if_neg (by rw [not_le]; linarith : ¬ (yz : ℝ) / 360 ≤ 0)]

theorem verticalStep_cast (s : PlayerState) (k : Keys) (p : PhysZ)
    (hy : s.position.y = (p.y : ℝ) / 360) (hv : s.velocityY = (p.v : ℝ) / 3)
    (hj : s.isJumping = p.j) :
    Player.verticalStep s k (1 / 60)
      = (((physFrameZ k.space p).y : ℝ) / 360, ((physFrameZ k.space p).v : ℝ) / 3,
          (physFrameZ k.space p).j) := by
  simp only [Player.verticalStep, physFrameZ, hy, hv, hj, Player.gravity, Player.jumpForce]
  cases hc : (k.space && !p.j) with
  | false =>
    simp only [hc, Bool.false_eq_true, if_false]
    rw [show ((p.v : ℝ) / 3 + -20 * (1 / 60)) = ((p.v - 1 : ℤ) : ℝ) / 3 by push_cast; ring,
      show ((p.y : ℝ) / 360 + (((p.v - 1 : ℤ) : ℝ) / 3) * (1 / 60))
        = ((p.y + 2 * (p.v - 1) : ℤ) : ℝ) / 360 by push_cast; ring]
    exact clamp_cast (p.y + 2 * (p.v - 1)) (p.v - 1) p.j
  | true =>
    simp only [hc, if_true]
    rw [show ((8 : ℝ) + -20 * (1 / 60)) = ((24 - 1 : ℤ) : ℝ) / 3 by push_cast; ring,
      show ((p.y : ℝ) / 360 + (((24 - 1 : ℤ) : ℝ) / 3) * (1 / 60))
        = ((p.y + 2 * (24 - 1) : ℤ) : ℝ) / 360 by push_cast; ring]
    exact clamp_cast (p.y + 2 * (24 - 1)) (24 - 1) true

theorem jumpScenario_bridge : ∀ n : ℕ,
    (jumpScenario n).isLoaded = true ∧
    (jumpScenario n).position.y = ((scenarioZ n).y : ℝ) / 360 ∧
    (jumpScenario n).velocityY = ((scenarioZ n).v : ℝ) / 3 ∧
    (jumpScenario n).isJumping = (scenarioZ n).j := by
  intro n
  induction n with
  | zero =>
    refine ⟨rfl, ?_, ?_, rfl⟩ <;> norm_num [jumpScenario, scenarioZ, player0]
  | succ n ih =>
    obtain ⟨hl, hy, hv, hj⟩ := ih
    have hk : (if n == 0 then keysSpaceOnly else keysNone).space = (n == 0) := by
      cases h : (n == 0) <;> simp [h, keysSpaceOnly, keysNone]
    have hiv : Player.inputVector (if n == 0 then keysSpaceOnly else keysNone) = ⟨0, 0, 0⟩ := by
      cases h : (n == 0) <;> norm_num [h, keysSpaceOnly, keysNone, Player.inputVector]
    have hupd := update_noMove (jumpScenario n) (if n == 0 then keysSpaceOnly else keysNone)
        camDefaultDir (1 / 60) hl hiv
    have hvert := verticalStep_cast (jumpScenario n)
        (if n == 0 then keysSpaceOnly else keysNone) (scenarioZ n) hy hv hj
    rw [hk] at hvert
    refine ⟨?_, ?_, ?_, ?_⟩ <;>
      simp only [jumpScenario, scenarioZ, hupd, hvert, hl]

set_option maxRecDepth 10000 in
theorem scenarioZ_47 : scenarioZ 47 = ⟨0, 0, false⟩ := by decide

theorem scenarioZ_fixed : ∀ m : ℕ, scenarioZ (47 + m) = ⟨0, 0, false⟩ := by
  intro m
  induction m with
  | zero => exact scenarioZ_47
  | succ m ih =>
    have hstep : scenarioZ (47 + (m + 1)) = physFrameZ ((47 + m) == 0) (scenarioZ (47 + m)) := rfl
    rw [hstep, ih]
    have h0 : ((47 + m) == 0) = false := by
      rw [beq_eq_false_iff_ne]
      omega
    rw [h0]
    decide

set_option maxRecDepth 40000 in
theorem scenarioZ_le_peak : ∀ n : ℕ, (scenarioZ n).y ≤ 552 := by
  intro n
  rcases lt_or_ge n 48 with h | h
  · exact (by decide : ∀ k : ℕ, k < 48 → (scenarioZ k).y ≤ 552) n h
  · obtain ⟨m, rfl⟩ : ∃ m, n = 47 + m := ⟨n - 47, by omega⟩
    rw [scenarioZ_fixed m]
    norm_num

set_option maxRecDepth 10000 in
/-- Claim C4: the jump scenario at 60 fps (gravity -20, jump impulse 8,
jump key set once while resting at the origin).  The per-frame vertical
state matches the exact scaled-integer mirror `scenarioZ` (y in units of
1/360); the jump peaks at frame 24 at height 23/15 ≈ 1.533, within 0.1
of the closed-form
`jumpForce^2 / (2*|gravity|)` = 1.6 the claim gives, never exceeds that
peak, and well within the 1-second mark (60 frames; landing is at frame
47) the player is back at `position.y = 0` with `velocityY` reset to 0
and `isJumping` false. -/
theorem jump_scenario_profile :
    (∀ n : ℕ, (jumpScenario n).position.y = ((scenarioZ n).y : ℝ) / 360) ∧
    (jumpScenario 60).position.y = 0 ∧
    (jumpScenario 60).velocityY = 0 ∧
    (jumpScenario 60).isJumping = false ∧
    (jumpScenario 24).position.y = 23 / 15 ∧
    (∀ n : ℕ, (jumpScenario n).position.y ≤ 23 / 15) ∧
    |(23 : ℝ) / 15 - Player.jumpForce ^ 2 / (2 * |Player.gravity|)| < 1 / 10 := by
  have h60 : scenarioZ 60 = ⟨0, 0, false⟩ := by
    have h := scenarioZ_fixed 13
    norm_num at h
    exact h
  refine ⟨fun n => (jumpScenario_bridge n).2.1, ?_, ?_, ?_, ?_, ?_, ?_⟩
  · rw [(jumpScenario_bridge 60).2.1, h60]
    norm_num
  · rw [(jumpScenario_bridge 60).2.2.1, h60]
    norm_num
  · rw [(jumpScenario_bridge 60).2.2.2, h60]
  · rw [(jumpScenario_bridge 24).2.1,
      (by decide : scenarioZ 24 = ⟨552, 0, true⟩)]
    norm_num
  · intro n
    rw [(jumpScenario_bridge n).2.1]
    have h := scenarioZ_le_peak n
    have h' : ((scenarioZ n).y : ℝ) ≤ 552 := by exact_mod_cast h
    linarith
  · have hg : |Player.gravity| = 20 := by
      rw [Player.gravity, abs_of_neg (by norm_num : (-20 : ℝ) < 0)]
      norm_num
    rw [hg, Player.jumpForce, show (8 : ℝ) ^ 2 / (2 * 20) = 8 / 5 by norm_num,
      show (23 : ℝ) / 15 - 8 / 5 = -(1 / 15) by norm_num, abs_neg,
      abs_of_pos (by norm_num : (0 : ℝ) < 1 / 15)]
    norm_num

/-! ## Claim C6 -/

/-- Claim C6: after any mouse-delta event processed while pointer lock is
active — hence after each event of any sequence, the prior state being
arbitrary — the pitch `phi` lies in [minPhi, maxPhi], while the yaw
`theta` is unbounded (it can be driven to any value by a single
delta). -/
theorem pitch_clamp_invariant :
    (∀ (s : CameraState) (dx dy : ℝ),
        CameraController.minPhi ≤ (CameraController.onMouseMove s dx dy).phi ∧
        (CameraController.onMouseMove s dx dy).phi ≤ CameraController.maxPhi) ∧
    (∀ (s : CameraState) (M : ℝ),
        ∃ dx : ℝ, (CameraController.onMouseMove s dx 0).theta = M) := by
  have hle : CameraController.minPhi ≤ CameraController.maxPhi := by
    simp only [CameraController.minPhi, CameraController.maxPhi]
    have := Real.pi_pos
    linarith
  constructor
  · intro s dx dy
    exact ⟨le_max_left _ _, max_le hle (min_le_left _ _)⟩
  · intro s M
    refine ⟨(s.theta - M) / CameraController.sensitivity, ?_⟩
    have hs : CameraController.sensitivity ≠ 0 := by
      norm_num [CameraController.sensitivity]
    show s.theta - (s.theta - M) / CameraController.sensitivity * CameraController.sensitivity = M
    rw [div_mul_cancel₀ _ hs]
    ring

/-! ## Claim C5 -/

theorem ideal_offset_cam0 :
    CameraController.calculateIdealOffset cam0 ⟨0, 0, 0⟩ = ⟨0, 1.5, 3⟩ := by
  norm_num [CameraController.calculateIdealOffset, cam0, Vec3.add]

theorem camUpdate_angles (c : CameraState) (m : Vec3) (dt : ℝ) :
    (CameraController.update c (some m) dt).theta = c.theta ∧
    (CameraController.update c (some m) dt).phi = c.phi ∧
    (CameraController.update c (some m) dt).isShoulderMode = c.isShoulderMode :=
  ⟨rfl, rfl, rfl⟩

theorem camIter_angles (s : CameraState) (m : Vec3) (dt : ℝ) : ∀ n : ℕ,
    (camIter s m dt n).theta = s.theta ∧
    (camIter s m dt n).phi = s.phi ∧
    (camIter s m dt n).isShoulderMode = s.isShoulderMode := by
  intro n
  induction n with
  | zero => exact ⟨rfl, rfl, rfl⟩
  | succ n ih =>
    have h := camUpdate_angles (camIter s m dt n) m dt
    exact ⟨h.1.trans ih.1, h.2.1.trans ih.2.1, h.2.2.trans ih.2.2⟩

theorem camIter_ideal (s : CameraState) (m : Vec3) (dt : ℝ) (n : ℕ) :
    CameraController.calculateIdealOffset (camIter s m dt n) m
      = CameraController.calculateIdealOffset s m := by
  have h := camIter_angles s m dt n
  simp only [CameraController.calculateIdealOffset, h.1, h.2.1, h.2.2]

theorem dist3_lerp (a b : Vec3) (t : ℝ) (ht : t ≤ 1) :
    dist3 (a.lerp b t) b = (1 - t) * dist3 a b := by
  simp only [dist3, Vec3.lerp]
  have harg : (a.x + (b.x - a.x) * t - b.x) ^ 2 + (a.y + (b.y - a.y) * t - b.y) ^ 2
        + (a.z + (b.z - a.z) * t - b.z) ^ 2
      = (1 - t) ^ 2 * ((a.x - b.x) ^ 2 + (a.y - b.y) ^ 2 + (a.z - b.z) ^ 2) := by
    ring
  rw [harg, Real.sqrt_mul (sq_nonneg _), Real.sqrt_sq (by linarith)]

theorem camIter_dist_succ (s : CameraState) (m : Vec3) (dt : ℝ) (n : ℕ) :
    dist3 (camIter s m dt (n + 1)).currentPosition (CameraController.calculateIdealOffset s m)
      = Real.exp (-10 * dt)
        * dist3 (camIter s m dt n).currentPosition (CameraController.calculateIdealOffset s m) := by
  have hI := camIter_ideal s m dt n
  have hcp : (camIter s m dt (n + 1)).currentPosition
      = (camIter s m dt n).currentPosition.lerp
          (CameraController.calculateIdealOffset s m) (1 - Real.exp (-10 * dt)) := by
    show (CameraController.update (camIter s m dt n) (some m) dt).currentPosition = _
    simp only [CameraController.update]
    rw [hI]
  rw [hcp, dist3_lerp _ _ _ (by linarith [Real.exp_pos (-10 * dt)])]
  ring_nf

theorem camIter_dist_pow (s : CameraState) (m : Vec3) (dt : ℝ) : ∀ n : ℕ,
    dist3 (camIter s m dt n).currentPosition (CameraController.calculateIdealOffset s m)
      = Real.exp (-10 * dt) ^ n
        * dist3 s.currentPosition (CameraController.calculateIdealOffset s m) := by
  intro n
  induction n with
  | zero => simp [camIter]
  | succ n ih =>
    rw [camIter_dist_succ, ih, pow_succ]
    ring

/-- Claim C5: `CameraController.update` damps the pose by linear
interpolation with factor `t = 1 - exp(-decay * dt)`, decay = 10; for a
constant ideal pose (fixed target mesh position, no angle changes) and
repeated fixed positive time steps the damped position's distance to the
ideal decays exactly exponentially, strictly decreases every step, and
falls below any positive epsilon from some step index on. -/
theorem camera_damping_convergence (s : CameraState) (m : Vec3) (dt ε : ℝ)
    (hdt : 0 < dt) (hε : 0 < ε)
    (h0 : 0 < dist3 s.currentPosition (CameraController.calculateIdealOffset s m)) :
    (∀ n : ℕ,
      dist3 (camIter s m dt n).currentPosition (CameraController.calculateIdealOffset s m)
        = Real.exp (-10 * dt) ^ n
          * dist3 s.currentPosition (CameraController.calculateIdealOffset s m)) ∧
    (∀ n : ℕ,
      dist3 (camIter s m dt (n + 1)).currentPosition (CameraController.calculateIdealOffset s m)
        < dist3 (camIter s m dt n).currentPosition (CameraController.calculateIdealOffset s m)) ∧
    (∃ N : ℕ, ∀ n : ℕ, N ≤ n →
      dist3 (camIter s m dt n).currentPosition (CameraController.calculateIdealOffset s m) < ε) := by
  have hr0 : 0 < Real.exp (-10 * dt) := Real.exp_pos _
  have hr1 : Real.exp (-10 * dt) < 1 := by
    rw [Real.exp_lt_one_iff]
    nlinarith
  have hpow := camIter_dist_pow s m dt
  refine ⟨hpow, ?_, ?_⟩
  · intro n
    rw [camIter_dist_succ, hpow n]
    have hdpos : 0 < Real.exp (-10 * dt) ^ n
        * dist3 s.currentPosition (CameraController.calculateIdealOffset s m) :=
      mul_pos (pow_pos hr0 n) h0
    nlinarith
  · obtain ⟨N, hN⟩ := exists_pow_lt_of_lt_one
      (div_pos hε h0) hr1
    refine ⟨N, fun n hn => ?_⟩
    rw [hpow n]
    have hle : Real.exp (-10 * dt) ^ n ≤ Real.exp (-10 * dt) ^ N :=
      pow_le_pow_of_le_one hr0.le hr1.le hn
    calc Real.exp (-10 * dt) ^ n
          * dist3 s.currentPosition (CameraController.calculateIdealOffset s m)
        ≤ Real.exp (-10 * dt) ^ N
          * dist3 s.currentPosition (CameraController.calculateIdealOffset s m) :=
          mul_le_mul_of_nonneg_right hle h0.le
      _ < (ε / dist3 s.currentPosition (CameraController.calculateIdealOffset s m))
          * dist3 s.currentPosition (CameraController.calculateIdealOffset s m) :=
          mul_lt_mul_of_pos_right hN h0
      _ = ε := div_mul_cancel₀ ε (ne_of_gt h0)

/-- Witness for `camera_damping_convergence` at a concrete input: the
freshly constructed camera, target mesh at the origin, 1 s steps,
epsilon 1. -/
theorem camera_damping_convergence_witness :
    (0 : ℝ) < 1 ∧
    0 < dist3 cam0.currentPosition (CameraController.calculateIdealOffset cam0 ⟨0, 0, 0⟩) ∧
    (∃ N : ℕ, ∀ n : ℕ, N ≤ n →
      dist3 (camIter cam0 ⟨0, 0, 0⟩ 1 n).currentPosition
        (CameraController.calculateIdealOffset cam0 ⟨0, 0, 0⟩) < 1) := by
  have h0 : 0 < dist3 cam0.currentPosition
      (CameraController.calculateIdealOffset cam0 ⟨0, 0, 0⟩) := by
    rw [ideal_offset_cam0]
    show 0 < dist3 ⟨0, 0, 0⟩ ⟨0, 1.5, 3⟩
    simp only [dist3]
    rw [Real.sqrt_pos]
    norm_num
  exact ⟨one_pos, h0,
    (camera_damping_convergence cam0 ⟨0, 0, 0⟩ 1 1 one_pos one_pos h0).2.2⟩

/-! ## Claim C7 (corrected) -/

/-- Counterexample to claim C7 as stated: the camera position applied to
the render camera is the damped `currentPosition`, which starts at the
zero vector; after the first 0.01 s frame it has only moved a fraction
`1 - exp(-0.1)` of the way toward the clamped ideal position, so its
height is below the 0.2 floor. -/
theorem applied_camera_height_counterexample :
    (CameraController.update cam0 (some ⟨0, 0, 0⟩) (1 / 100)).currentPosition.y < 0.2 := by
  have h := Real.add_one_le_exp (-(10 * (1 / 100 : ℝ)))
  simp only [CameraController.update]
  rw [ideal_offset_cam0]
  simp only [cam0, Vec3.lerp]
  norm_num at h ⊢
  nlinarith [h]

/-- Claim C7 amended: the *ideal* camera position computed by
`calculateIdealOffset` always has height at least 0.2 (the clamp); the
damped position actually applied to the render camera can be below the
floor on early frames (see the counterexample), since only the ideal
pose is clamped. -/
theorem clampY_ge (v : Vec3) : 0.2 ≤ (if v.y < 0.2 then Vec3.mk v.x 0.2 v.z else v).y := by
  split
  · exact le_refl _
  · next h => exact le_of_not_lt h

/-- Claim C7 amended: the *ideal* camera position computed by
`calculateIdealOffset` always has height at least 0.2 (the clamp); the
damped position actually applied to the render camera can be below the
floor on early frames (see the counterexample), since only the ideal
pose is clamped. -/
theorem ideal_camera_height_floor :
    ∀ (s : CameraState) (m : Vec3), 0.2 ≤ (CameraController.calculateIdealOffset s m).y := by
  intro s m
  simp only [CameraController.calculateIdealOffset]
  exact clampY_ge _
